import Mathlib

/-!
Shallow embedding of the WasteWise application (src/app.py): a role-based
waste-management app over a SQLite store. We model the database tables as
lists of records inside a `Store` structure and each SQL-executing handler
as a pure function on `Store`. Timestamps (created_at / updated_at) carry
no information relevant to any claim and are omitted; the bcrypt hash and
verify functions are abstracted as opaque string data and a verifier
parameter. SQLite REAL columns are modelled as `Rat`.
-/

namespace WasteWise

/-- Status enumeration of waste_requests.status, per the CHECK constraint in
the DDL (src/app.py lines 46-48). -/
inductive Status where
  | requested | assigned | collected | segregated | recycled | cancelled
deriving DecidableEq, Repr, BEq

/-- Category enumeration of waste_requests.category, per the CHECK constraint
in the DDL (src/app.py line 43). -/
inductive Category where
  | mixed | organic | recyclable | hazardous
deriving DecidableEq, Repr, BEq

/-- Role enumeration of users.role, per the CHECK constraint in the DDL
(src/app.py line 33). -/
inductive Role where
  | ministry | citizen | employee
deriving DecidableEq, Repr, BEq

/-- Status enumeration of rewards.status (src/app.py line 87). -/
inductive RewardStatus where
  | pending | approved | rejected
deriving DecidableEq, Repr, BEq

/-- The CHECK constraint on waste_requests.category: maps the raw string
stored by the INSERT to the closed enumeration, or fails. -/
def Category.ofString : String → Option Category
  | "mixed" => some .mixed
  | "organic" => some .organic
  | "recyclable" => some .recyclable
  | "hazardous" => some .hazardous
  | _ => none

/-- Row of the users table. -/
structure User where
  id : Nat
  username : String
  full_name : String
  role : Role
  password_hash : String
deriving DecidableEq, Repr

/-- Row of the waste_requests table. -/
structure WasteRequest where
  id : Nat
  citizen_id : Nat
  address : String
  category : Category
  quantity_kg : Rat
  preferred_date : String
  status : Status
  assigned_employee_id : Option Nat
deriving DecidableEq, Repr

/-- Row of the segregation_records table (request_id is UNIQUE in the DDL). -/
structure SegregationRecord where
  request_id : Nat
  organic_kg : Rat
  recyclable_kg : Rat
  hazardous_kg : Rat
  notes : String
deriving DecidableEq, Repr

/-- Row of the recycling_batches table. -/
structure RecyclingBatch where
  request_id : Nat
  material : String
  output_product : String
  output_weight_kg : Rat
  processed_by : Nat
deriving DecidableEq, Repr

/-- Row of the rewards table. -/
structure Reward where
  id : Nat
  user_id : Nat
  points : Int
  reason : String
  status : RewardStatus
  approved_by : Option Nat
deriving DecidableEq, Repr

/-- The whole SQLite database. The nextRequestId / nextUserId fields model
the AUTOINCREMENT counters. -/
structure Store where
  users : List User
  requests : List WasteRequest
  segRecords : List SegregationRecord
  batches : List RecyclingBatch
  rewards : List Reward
  nextRequestId : Nat
  nextUserId : Nat
deriving DecidableEq, Repr

/-- Error taxonomy of the spec (section 7). The code signals NotFound via
st.error("Request not found"), DuplicateUsername via the caught
sqlite3.IntegrityError on the users UNIQUE constraint, and ValidationError
via a CHECK-constraint violation. -/
inductive AppError where
  | notFound | duplicateUsername | invalidTransition | validationError
deriving DecidableEq, Repr, BEq

/-- SQL UPDATE waste_requests ... WHERE id=rid: applies f to every row whose
id matches (ids are primary keys, but the UPDATE itself is a plain map). -/
def updateRequest (s : Store) (rid : Nat) (f : WasteRequest → WasteRequest) : Store :=
  { s with requests := s.requests.map (fun r => if r.id == rid then f r else r) }

/-- Embedding of citizen_create_request's submit handler (src/app.py
lines 205-212): INSERT INTO waste_requests with status 'requested' and no
assigned employee. The category CHECK constraint of the DDL rejects an
unrecognized category string (sqlite raises IntegrityError before any row is
stored); there is no constraint on quantity_kg. -/
def createRequest (s : Store) (citizen : Nat) (address : String)
    (category : String) (quantity : Rat) (pref : String) : Except AppError Store :=
  match Category.ofString category with
  | none => .error .validationError
  | some c => .ok { s with
      requests := s.requests ++
        [⟨s.nextRequestId, citizen, address, c, quantity, pref, .requested, none⟩],
      nextRequestId := s.nextRequestId + 1 }

/-- Embedding of the Assign button handler in ministry_assign_requests
(src/app.py lines 340-347): UPDATE waste_requests SET status='assigned',
assigned_employee_id=? WHERE id=?. Note: the SQL carries no condition on the
current status and has no failure path. -/
def assign (s : Store) (rid : Nat) (eid : Nat) : Store :=
  updateRequest s rid (fun r => { r with status := .assigned, assigned_employee_id := some eid })

/-- Embedding of the Update Status button handler in employee_assigned_jobs
(src/app.py lines 263-267): UPDATE waste_requests SET status=? WHERE id=?.
The selectbox offers exactly 'collected' and 'segregated'; toSegregated
records which of the two options was picked. No condition on the current
status, no check that the caller is the assigned employee. -/
def employeeUpdateStatus (s : Store) (rid : Nat) (toSegregated : Bool) : Store :=
  updateRequest s rid (fun r =>
    { r with status := if toSegregated then .segregated else .collected })

/-- Embedding of employee_segregation_record's submit handler (src/app.py
lines 280-293): SELECT status WHERE id=? (error "Request not found" and
return when absent), then INSERT OR REPLACE INTO segregation_records (the
UNIQUE constraint on request_id makes OR REPLACE delete any conflicting
row), then UPDATE waste_requests SET status='segregated'. -/
def recordSegregation (s : Store) (rid : Nat) (organic recyclable hazardous : Rat)
    (notes : String) : Except AppError Store :=
  match s.requests.find? (fun r => r.id == rid) with
  | none => .error .notFound
  | some _ => .ok
      { (updateRequest s rid (fun r => { r with status := .segregated })) with
        segRecords := s.segRecords.filter (fun sr => sr.request_id != rid) ++
          [⟨rid, organic, recyclable, hazardous, notes⟩] }

/-- Embedding of employee_recycling_entry's submit handler (src/app.py
lines 305-313): INSERT INTO recycling_batches unconditionally (the foreign
key on request_id is not enforced as the connection never enables
PRAGMA foreign_keys), then UPDATE waste_requests SET status='recycled'
WHERE id=? — a no-op if no such request exists. Never fails. -/
def logRecyclingBatch (s : Store) (rid : Nat) (material product : String)
    (weight : Rat) (eid : Nat) : Store :=
  { (updateRequest s rid (fun r => { r with status := .recycled })) with
    batches := s.batches ++ [⟨rid, material, product, weight, eid⟩] }

/-- Embedding of the Create User handler in ministry_user_mgmt (src/app.py
lines 414-426): INSERT INTO users; the UNIQUE constraint on username makes
sqlite raise IntegrityError when the username already exists (exact,
case-sensitive text comparison), which the handler catches, reporting an
error and persisting nothing. -/
def registerUser (s : Store) (uname fname : String) (role : Role)
    (pwdHash : String) : Except AppError Store :=
  if s.users.any (fun u => u.username == uname) then .error .duplicateUsername
  else .ok { s with
    users := s.users ++ [⟨s.nextUserId, uname, fname, role, pwdHash⟩],
    nextUserId := s.nextUserId + 1 }

/-- Embedding of authenticate (src/app.py lines 122-132): SELECT the row for
the username, return none when absent; otherwise return the identity triple
exactly when bcrypt.verify succeeds. The verifier is passed in as an
abstract function of the candidate password and the stored hash. -/
def authenticate (verify : String → String → Bool) (users : List User)
    (username password : String) : Option (Nat × String × Role) :=
  match users.find? (fun u => u.username == username) with
  | none => none
  | some u =>
      if verify password u.password_hash then some (u.id, u.full_name, u.role)
      else none

/-- Embedding of the Approved Points metric in citizen_rewards (src/app.py
lines 234-240): the user's rewards rows are fetched, and the metric is the
sum of points over the 'approved' ones when the frame is non-empty, else 0. -/
def approvedPointsTotal (rewards : List Reward) (uid : Nat) : Int :=
  let df := rewards.filter (fun rw => rw.user_id == uid)
  if df.isEmpty then 0
  else ((df.filter (fun rw => rw.status == .approved)).map (fun rw => rw.points)).sum

/-- Restatement of the spec's description of approved_points_total (section
4.3): the sum of points over proposals with status approved for that user.
Used to compare the code's conditional form against the spec's words. -/
def approvedPointsTotalSpec (rewards : List Reward) (uid : Nat) : Int :=
  ((rewards.filter (fun rw => rw.user_id == uid && rw.status == .approved)).map
    (fun rw => rw.points)).sum

/-- All status values, in the order of the DDL CHECK constraint. -/
def allStatuses : List Status :=
  [.requested, .assigned, .collected, .segregated, .recycled, .cancelled]

/-- Embedding of the requests-by-status projection in ministry_analytics
(src/app.py line 381): SELECT status, COUNT(*) FROM waste_requests GROUP BY
status — one row per status value present, with its count. -/
def requestsByStatus (reqs : List WasteRequest) : List (Status × Nat) :=
  (allStatuses.filter (fun st => reqs.any (fun r => r.status == st))).map
    (fun st => (st, (reqs.filter (fun r => r.status == st)).length))

/-- SQL SUM over a column: NULL (none) on an empty row set, the sum
otherwise. -/
def sumOpt (l : List Rat) : Option Rat :=
  if l.isEmpty then none else some l.sum

/-- Embedding of the segregation totals projection in ministry_analytics
(src/app.py line 382): SELECT SUM(organic_kg), SUM(recyclable_kg),
SUM(hazardous_kg) FROM segregation_records — a single row; each SUM is NULL
when the table is empty. -/
def segTotals (segs : List SegregationRecord) : Option Rat × Option Rat × Option Rat :=
  (sumOpt (segs.map (fun sr => sr.organic_kg)),
   sumOpt (segs.map (fun sr => sr.recyclable_kg)),
   sumOpt (segs.map (fun sr => sr.hazardous_kg)))

/-- Embedding of the recycling-output projection in ministry_analytics
(src/app.py line 383): SELECT material, SUM(output_weight_kg) FROM
recycling_batches GROUP BY material. -/
def recyclingByMaterial (batches : List RecyclingBatch) : List (String × Rat) :=
  ((batches.map (fun b => b.material)).dedup).map
    (fun m => (m, ((batches.filter (fun b => b.material == m)).map
      (fun b => b.output_weight_kg)).sum))

/-- The ministry admin row seeded by init_db (src/app.py lines 109-117);
the stored value is the bcrypt hash of "admin123", abstracted here. -/
def adminUser : User :=
  ⟨1, "admin@ministry.gov", "Ministry Admin", .ministry, "bcrypt$admin123"⟩

/-- The store right after init_db on a fresh database: empty tables except
for the seeded ministry admin. -/
def initStore : Store :=
  ⟨[adminUser], [], [], [], [], 1, 2⟩

/-- The request-mutating operations named by the lifecycle claims, with the
inputs each form can supply. advance carries the selectbox choice
(collected or segregated) as a Bool. -/
inductive Op where
  | create (citizen : Nat) (address : String) (category : String) (quantity : Rat) (pref : String)
  | assignTo (rid eid : Nat)
  | advance (rid : Nat) (toSegregated : Bool)
  | segregate (rid : Nat) (organic recyclable hazardous : Rat) (notes : String)
  | recycle (rid : Nat) (material product : String) (weight : Rat) (eid : Nat)

/-- Effect of one operation on the store; a handler that reports an error
commits nothing, leaving the store unchanged. -/
def applyOp (s : Store) : Op → Store
  | .create c a cat q p =>
      match createRequest s c a cat q p with
      | .ok s2 => s2
      | .error _ => s
  | .assignTo rid eid => assign s rid eid
  | .advance rid b => employeeUpdateStatus s rid b
  | .segregate rid o rc hz n =>
      match recordSegregation s rid o rc hz n with
      | .ok s2 => s2
      | .error _ => s
  | .recycle rid m p w e => logRecyclingBatch s rid m p w e

/-- Stores reachable from a fresh database by the request-lifecycle
operations. -/
inductive Reachable : Store → Prop where
  | init : Reachable initStore
  | step {s : Store} (op : Op) : Reachable s → Reachable (applyOp s op)

/-- Statuses in which the spec expects an employee to be assigned. -/
def activeStatus (st : Status) : Prop :=
  st = .assigned ∨ st = .collected ∨ st = .segregated ∨ st = .recycled

instance : DecidablePred activeStatus := fun st => by
  unfold activeStatus; infer_instance

/-- One direction of the spec's assignment invariant, as a predicate on the
requests table: a request carrying an assigned employee is in an active
status. -/
def employeeImpliesActive (reqs : List WasteRequest) : Prop :=
  ∀ r ∈ reqs, r.assigned_employee_id.isSome = true → activeStatus r.status

/-- Membership in an UPDATE ... WHERE id=rid result: each row of the output
is an input row, either untouched or rewritten by the SET clause. -/
lemma mem_update_cases {reqs : List WasteRequest} {rid : Nat}
    {f : WasteRequest → WasteRequest} {r : WasteRequest}
    (h : r ∈ reqs.map (fun x => if x.id == rid then f x else x)) :
    ∃ x ∈ reqs, r = x ∨ r = f x := by
  rcases List.mem_map.mp h with ⟨x, hx, he⟩
  refine ⟨x, hx, ?_⟩
  by_cases hid : x.id == rid
  · right; rw [← he]; simp [hid]
  · left; rw [← he]; simp [hid]

/-- An UPDATE whose SET clause always writes an active status preserves
`employeeImpliesActive`. -/
lemma employeeImpliesActive_update {reqs : List WasteRequest} {rid : Nat}
    {f : WasteRequest → WasteRequest} (hs : employeeImpliesActive reqs)
    (hf : ∀ r, activeStatus (f r).status) :
    employeeImpliesActive (reqs.map (fun x => if x.id == rid then f x else x)) := by
  intro r hr hemp
  rcases mem_update_cases hr with ⟨x, hx, h1 | h1⟩ <;> subst h1
  · exact hs _ hx hemp
  · exact hf _

/-- C1 (amended) : in every reachable state, a request with a non-null
assigned_employee has status assigned, collected, segregated, or recycled.
(The converse direction of the claim's iff is refuted by
`c1_counterexample` below: status can be advanced without an assignment.) -/
theorem employee_assignment_only_in_active_states :
    ∀ s, Reachable s → employeeImpliesActive s.requests := by
  intro s h
  induction h with
  | init => intro r hr; simp [initStore] at hr
  | @step s1 op _ ih =>
    cases op with
    | create c a cat q p =>
      intro r hr hemp
      simp only [applyOp, createRequest] at hr
      cases hcat : Category.ofString cat with
      | none => rw [hcat] at hr; exact ih r hr hemp
      | some cv =>
        rw [hcat] at hr
        simp only [List.mem_append, List.mem_singleton] at hr
        cases hr with
        | inl hold => exact ih r hold hemp
        | inr hnew => rw [hnew] at hemp; simp at hemp
    | assignTo rid eid =>
      exact employeeImpliesActive_update ih (fun r => Or.inl rfl)
    | advance rid b =>
      refine employeeImpliesActive_update ih (fun r => ?_)
      cases b
      · exact Or.inr (Or.inl rfl)
      · exact Or.inr (Or.inr (Or.inl rfl))
    | segregate rid o rc hz n =>
      intro r hr hemp
      simp only [applyOp, recordSegregation] at hr
      cases hfind : s1.requests.find? (fun x => x.id == rid) with
      | none =>
        rw [hfind] at hr
        exact ih r hr hemp
      | some r0 =>
        rw [hfind] at hr
        simp only [updateRequest] at hr
        exact employeeImpliesActive_update ih
          (fun r => Or.inr (Or.inr (Or.inl rfl))) r hr hemp
    | recycle rid m p w e =>
      intro r hr hemp
      simp only [applyOp, logRecyclingBatch, updateRequest] at hr
      exact employeeImpliesActive_update ih
        (fun r => Or.inr (Or.inr (Or.inr rfl))) r hr hemp

/-- Reachable state used to witness the amended C1 theorem: create a
request, then assign employee 3 to it. -/
def c1WitnessStore : Store :=
  applyOp (applyOp initStore (.create 2 "12 Main St" "mixed" 5 "2025-01-01"))
    (.assignTo 1 3)

/-- Witness for C1 (amended): applied at the concrete reachable store above,
whose single request has assigned_employee 3 and status assigned. -/
theorem employee_assignment_only_in_active_states_witness :
    activeStatus Status.assigned :=
  employee_assignment_only_in_active_states c1WitnessStore
    (Reachable.step _ (Reachable.step _ Reachable.init))
    ⟨1, 2, "12 Main St", .mixed, 5, "2025-01-01", .assigned, some 3⟩
    (by decide) (by decide)

/-- Reachable state refuting the iff form of C1: create a request (status
requested, no employee), then the employee status update marks it collected
without any employee ever having been assigned. -/
def c1CounterStore : Store :=
  applyOp (applyOp initStore (.create 2 "12 Main St" "mixed" 5 "2025-01-01"))
    (.advance 1 false)

/-- Counterexample to C1 as stated: a reachable state containing a request
with status collected and assigned_employee null, violating the claimed
iff — the employee status-update handler (src/app.py lines 263-267) checks
neither the prior status nor that an employee is assigned. -/
theorem c1_counterexample :
    Reachable c1CounterStore ∧
      ¬ (∀ r ∈ c1CounterStore.requests,
          (r.assigned_employee_id.isSome = true ↔ activeStatus r.status)) :=
  ⟨Reachable.step _ (Reachable.step _ Reachable.init), by decide⟩

/-- Lookup of a row by id commutes with an UPDATE ... WHERE id=rid whose SET
clause does not touch the id column. -/
lemma find?_updateRequest (l : List WasteRequest) (rid : Nat)
    (f : WasteRequest → WasteRequest) (hf : ∀ r, (f r).id = r.id) :
    (l.map (fun r => if r.id == rid then f r else r)).find? (fun r => r.id == rid) =
      (l.find? (fun r => r.id == rid)).map (fun r => if r.id == rid then f r else r) := by
  induction l with
  | nil => rfl
  | cons a t ih =>
    by_cases h : a.id == rid
    · have hfa : ((f a).id == rid) = true := by rw [hf a]; exact h
      rw [List.map_cons, if_pos h,
        @List.find?_cons_of_pos _ (fun r => r.id == rid) (f a) _ hfa,
        @List.find?_cons_of_pos _ (fun r => r.id == rid) a _ h,
        Option.map_some', if_pos h]
    · rw [List.map_cons, if_neg h,
        @List.find?_cons_of_neg _ (fun r => r.id == rid) a _ h,
        @List.find?_cons_of_neg _ (fun r => r.id == rid) a _ h]
      exact ih

/-- Effect of an id-preserving UPDATE on the row it targets. -/
lemma find?_update_of_found {s : Store} {rid : Nat} {r : WasteRequest}
    (f : WasteRequest → WasteRequest) (hf : ∀ x, (f x).id = x.id)
    (h : s.requests.find? (fun x => x.id == rid) = some r) :
    (updateRequest s rid f).requests.find? (fun x => x.id == rid) = some (f r) := by
  have hp : (r.id == rid) = true :=
    @List.find?_some _ (fun x => x.id == rid) r s.requests h
  unfold updateRequest
  rw [find?_updateRequest _ _ _ hf, h]
  show some (if (r.id == rid) = true then f r else r) = some (f r)
  rw [if_pos hp]

/-- Store with a single request in status collected, assigned to employee 4,
used to refute C2. -/
def c2Store : Store :=
  ⟨[adminUser], [⟨1, 2, "12 Main St", .mixed, 5, "2025-01-01", .collected, some 4⟩],
   [], [], [], 2, 3⟩

/-- Counterexample to C2 as stated: request 1 is in status collected (not
requested), yet assign does not fail with InvalidTransition — the handler
(src/app.py lines 340-347) has no failure path at all; it overwrites the
status to assigned and the employee to 7. -/
theorem c2_counterexample :
    (c2Store.requests.find? (fun x => x.id == 1)).map (fun r => r.status) =
        some .collected ∧
      ((assign c2Store 1 7).requests.find? (fun x => x.id == 1)).map
          (fun r => r.status) = some .assigned ∧
      ((assign c2Store 1 7).requests.find? (fun x => x.id == 1)).map
          (fun r => r.assigned_employee_id) = some (some 7) := by
  decide

/-- C2 (amended) : assign never fails. For every existing request,
regardless of its current status, it sets the status to assigned and records
the given employee; the requested-only restriction exists only in the
pending list displayed to the ministry, not in the UPDATE itself. -/
theorem assign_unconditional (s : Store) (rid eid : Nat) (r : WasteRequest)
    (h : s.requests.find? (fun x => x.id == rid) = some r) :
    (assign s rid eid).requests.find? (fun x => x.id == rid) =
      some { r with status := .assigned, assigned_employee_id := some eid } := by
  unfold assign
  exact find?_update_of_found _ (fun x => rfl) h

/-- Witness for C2 (amended), applied at the concrete store `c2Store`. -/
theorem assign_unconditional_witness :
    (assign c2Store 1 7).requests.find? (fun x => x.id == 1) =
      some ⟨1, 2, "12 Main St", .mixed, 5, "2025-01-01", .assigned, some 7⟩ :=
  assign_unconditional c2Store 1 7
    ⟨1, 2, "12 Main St", .mixed, 5, "2025-01-01", .collected, some 4⟩ (by decide)

/-- Store with a single request already in the terminal status recycled,
used for C3. -/
def c3Store : Store :=
  ⟨[adminUser], [⟨1, 2, "7 Oak Ave", .organic, 3, "2025-02-01", .recycled, some 4⟩],
   [], [], [], 2, 3⟩

/-- Counterexample to C3 as stated: request 1 has the terminal status
recycled, yet assign moves it back to assigned — a backward transition the
claim rules out. No handler checks the prior status. -/
theorem c3_counterexample :
    (c3Store.requests.find? (fun x => x.id == 1)).map (fun r => r.status) =
        some .recycled ∧
      ((assign c3Store 1 9).requests.find? (fun x => x.id == 1)).map
          (fun r => r.status) = some .assigned := by
  decide

/-- C3 (amended) : for a request in status recycled, log_recycling_batch
leaves the status recycled, but assign, the employee status update, and
record_segregation each overwrite it (to assigned, to collected or
segregated, and to segregated respectively): the lifecycle is not enforced
as a forward chain and recycled is not a terminal state. -/
theorem recycled_not_terminal (s : Store) (rid : Nat) (r : WasteRequest)
    (h : s.requests.find? (fun x => x.id == rid) = some r)
    (_hst : r.status = .recycled) :
    (∀ m p w e,
      ((logRecyclingBatch s rid m p w e).requests.find? (fun x => x.id == rid)).map
        (fun x => x.status) = some .recycled)
    ∧ (∀ eid,
      ((assign s rid eid).requests.find? (fun x => x.id == rid)).map
        (fun x => x.status) = some .assigned)
    ∧ (∀ b,
      ((employeeUpdateStatus s rid b).requests.find? (fun x => x.id == rid)).map
        (fun x => x.status) = some (if b then .segregated else .collected))
    ∧ (∀ o rc hz n, ∃ s2, recordSegregation s rid o rc hz n = .ok s2 ∧
        (s2.requests.find? (fun x => x.id == rid)).map (fun x => x.status) =
          some .segregated) := by
  refine ⟨?_, ?_, ?_, ?_⟩
  · intro m p w e
    have : (logRecyclingBatch s rid m p w e).requests =
        (updateRequest s rid (fun x => { x with status := .recycled })).requests := rfl
    rw [this,
      find?_update_of_found (fun x => { x with status := Status.recycled })
        (fun x => rfl) h]
    rfl
  · intro eid
    rw [assign_unconditional s rid eid r h]
    rfl
  · intro b
    unfold employeeUpdateStatus
    rw [find?_update_of_found
      (fun x => { x with status := if b then Status.segregated else Status.collected })
      (fun x => rfl) h]
    rfl
  · intro o rc hz n
    refine ⟨{ (updateRequest s rid (fun x => { x with status := Status.segregated })) with
        segRecords := s.segRecords.filter (fun sr => sr.request_id != rid) ++
          [⟨rid, o, rc, hz, n⟩] }, ?_, ?_⟩
    · unfold recordSegregation
      rw [h]
    · show Option.map (fun x => x.status)
        ((updateRequest s rid (fun x => { x with status := Status.segregated })).requests.find?
          (fun x => x.id == rid)) = some Status.segregated
      rw [find?_update_of_found (fun x => { x with status := Status.segregated })
        (fun x => rfl) h]
      rfl

/-- Witness for C3 (amended), applied at `c3Store`: after logging another
recycling batch against request 1 its status is still recycled. -/
theorem recycled_not_terminal_witness :
    ((logRecyclingBatch c3Store 1 "compost" "soil" 2 4).requests.find?
      (fun x => x.id == 1)).map (fun x => x.status) = some .recycled :=
  (recycled_not_terminal c3Store 1
    ⟨1, 2, "7 Oak Ave", .organic, 3, "2025-02-01", .recycled, some 4⟩
    (by decide) (by decide)).1 "compost" "soil" 2 4

/-- Counterexample to C4 as stated: a create_request call with the valid
category mixed and the non-positive quantity -1 is not rejected — the row is
persisted with quantity_kg = -1. The DDL has a CHECK constraint on category
but none on quantity_kg; the only guard on quantity is the form widget's
minimum of 0.1 (src/app.py line 202), which is not a validation error of the
operation itself. -/
theorem c4_counterexample :
    ((-1 : Rat) ≤ 0) ∧
      createRequest initStore 2 "12 Main St" "mixed" (-1) "2025-01-01" =
        .ok ⟨[adminUser],
          [⟨1, 2, "12 Main St", .mixed, -1, "2025-01-01", .requested, none⟩],
          [], [], [], 2, 2⟩ :=
  ⟨by norm_num, by rfl⟩

/-- C4 (amended) : create_request rejects every unrecognized category with a
validation error (the CHECK constraint), persisting nothing; on a recognized
category it appends a request with status requested and no assigned employee
for any quantity whatsoever — a non-positive quantity is not rejected by the
operation (it is only kept out by the form widget's 0.1 kg minimum). -/
theorem create_request_validation (s : Store) (cit : Nat) (addr cat : String)
    (q : Rat) (pref : String) :
    (Category.ofString cat = none →
      createRequest s cit addr cat q pref = .error .validationError)
    ∧ (∀ c, Category.ofString cat = some c →
        createRequest s cit addr cat q pref = .ok { s with
          requests := s.requests ++
            [⟨s.nextRequestId, cit, addr, c, q, pref, .requested, none⟩],
          nextRequestId := s.nextRequestId + 1 }) := by
  constructor
  · intro h
    unfold createRequest
    rw [h]
  · intro c h
    unfold createRequest
    rw [h]

/-- Witness for C4 (amended): the unrecognized category "glass" is rejected
with a validation error on the initial store. -/
theorem create_request_validation_witness :
    createRequest initStore 2 "12 Main St" "glass" 5 "2025-01-01" =
      .error .validationError :=
  (create_request_validation initStore 2 "12 Main St" "glass" 5 "2025-01-01").1
    (by decide)

/-- C5 : record_segregation on an existing request (whatever its prior
status) succeeds, leaves exactly one SegregationRecord referencing that
request — the freshly written one, creating it if absent and replacing any
existing one via INSERT OR REPLACE on the UNIQUE request_id — and sets the
request's status to segregated. -/
theorem record_segregation_upserts (s : Store) (rid : Nat)
    (o rc hz : Rat) (n : String) (r : WasteRequest)
    (h : s.requests.find? (fun x => x.id == rid) = some r) :
    ∃ s2, recordSegregation s rid o rc hz n = .ok s2 ∧
      s2.segRecords.filter (fun sr => sr.request_id == rid) = [⟨rid, o, rc, hz, n⟩] ∧
      (s2.requests.find? (fun x => x.id == rid)).map (fun x => x.status) =
        some .segregated := by
  refine ⟨{ (updateRequest s rid (fun x => { x with status := Status.segregated })) with
      segRecords := s.segRecords.filter (fun sr => sr.request_id != rid) ++
        [⟨rid, o, rc, hz, n⟩] }, ?_, ?_, ?_⟩
  · unfold recordSegregation
    rw [h]
  · show (s.segRecords.filter (fun sr => sr.request_id != rid) ++
        ([⟨rid, o, rc, hz, n⟩] : List SegregationRecord)).filter
          (fun sr => sr.request_id == rid) =
      [⟨rid, o, rc, hz, n⟩]
    rw [List.filter_append]
    have h1 : (s.segRecords.filter (fun sr => sr.request_id != rid)).filter
        (fun sr => sr.request_id == rid) = [] := by
      rw [List.filter_filter]
      apply List.filter_eq_nil_iff.mpr
      intro sr _
      simp [bne]
    rw [h1]
    simp
  · show Option.map (fun x => x.status)
      ((updateRequest s rid (fun x => { x with status := Status.segregated })).requests.find?
        (fun x => x.id == rid)) = some Status.segregated
    rw [find?_update_of_found (fun x => { x with status := Status.segregated })
      (fun x => rfl) h]
    rfl

/-- Store holding one request that already carries a stale segregation
record, used to witness the upsert behavior of C5. -/
def c5Store : Store :=
  ⟨[adminUser], [⟨1, 2, "3 Pine Rd", .recyclable, 4, "2025-03-01", .collected, some 4⟩],
   [⟨1, 1, 1, 1, "old"⟩], [], [], 2, 3⟩

/-- Witness for C5, applied at `c5Store`: replacing the stale record leaves
exactly the new one and the request is segregated. -/
theorem record_segregation_upserts_witness :
    ∃ s2, recordSegregation c5Store 1 2 2 0 "split done" = .ok s2 ∧
      s2.segRecords.filter (fun sr => sr.request_id == 1) = [⟨1, 2, 2, 0, "split done"⟩] ∧
      (s2.requests.find? (fun x => x.id == 1)).map (fun x => x.status) =
        some .segregated :=
  record_segregation_upserts c5Store 1 2 2 0 "split done"
    ⟨1, 2, "3 Pine Rd", .recyclable, 4, "2025-03-01", .collected, some 4⟩ (by decide)

/-- C6 : a register call whose username already exists fails with
DuplicateUsername; because the handler catches the IntegrityError and
commits nothing, the store — in particular the original user's stored
credential — is unchanged (the embedded operation returns only the error,
leaving the input store untouched). -/
theorem register_duplicate_username (s : Store) (uname fname : String)
    (role : Role) (pwh : String) (u : User)
    (hm : u ∈ s.users) (hn : u.username = uname) :
    registerUser s uname fname role pwh = .error .duplicateUsername := by
  unfold registerUser
  rw [if_pos]
  exact List.any_eq_true.mpr ⟨u, hm, by simp [hn]⟩

/-- Witness for C6: re-registering the seeded admin username on the initial
store fails with DuplicateUsername. -/
theorem register_duplicate_username_witness :
    registerUser initStore "admin@ministry.gov" "Someone Else" .citizen "h2" =
      .error .duplicateUsername :=
  register_duplicate_username initStore "admin@ministry.gov" "Someone Else"
    .citizen "h2" adminUser (by decide) (by decide)

/-- Filtering a user's rewards for the approved ones in one pass or two
passes gives the same rows. -/
lemma rewards_filter_split (rewards : List Reward) (uid : Nat) :
    rewards.filter (fun rw => rw.user_id == uid && rw.status == RewardStatus.approved) =
      (rewards.filter (fun rw => rw.user_id == uid)).filter
        (fun rw => rw.status == RewardStatus.approved) := by
  rw [List.filter_filter]
  exact (List.filter_congr (fun x _ => Bool.and_comm _ _)).symm

/-- C7 : the Approved Points metric equals the spec's sum of points over the
user's approved proposals; in particular it is 0 when the user has no
proposals and when all of the user's proposals are pending or rejected. -/
theorem approved_points_total_correct (rewards : List Reward) (uid : Nat) :
    approvedPointsTotal rewards uid = approvedPointsTotalSpec rewards uid
    ∧ (rewards.filter (fun rw => rw.user_id == uid) = [] →
        approvedPointsTotal rewards uid = 0)
    ∧ ((∀ rw ∈ rewards, rw.user_id = uid →
          rw.status = RewardStatus.pending ∨ rw.status = RewardStatus.rejected) →
        approvedPointsTotal rewards uid = 0) := by
  have hsplit := rewards_filter_split rewards uid
  refine ⟨?_, ?_, ?_⟩
  · unfold approvedPointsTotal approvedPointsTotalSpec
    rw [hsplit]
    by_cases hdf : (rewards.filter (fun rw => rw.user_id == uid)).isEmpty
    · rw [if_pos hdf]
      rw [List.isEmpty_iff.mp hdf]
      rfl
    · rw [if_neg hdf]
  · intro h
    unfold approvedPointsTotal
    rw [h]
    rfl
  · intro h
    unfold approvedPointsTotal
    have hnil : (rewards.filter (fun rw => rw.user_id == uid)).filter
        (fun rw => rw.status == RewardStatus.approved) = [] := by
      apply List.filter_eq_nil_iff.mpr
      intro rw hrw
      rcases List.mem_filter.mp hrw with ⟨hmem, huid⟩
      rcases h rw hmem (by simpa using huid) with hp | hp <;> rw [hp] <;> decide
    by_cases hdf : (rewards.filter (fun rw => rw.user_id == uid)).isEmpty
    · rw [if_pos hdf]
    · rw [if_neg hdf, hnil]
      rfl

/-- Concrete rewards table for the C7 witness: user 3 has one pending and
one rejected proposal, user 5 has an approved one. -/
def c7Rewards : List Reward :=
  [⟨1, 3, 10, "timely pickup", .pending, none⟩,
   ⟨2, 3, 7, "clean segregation", .rejected, some 1⟩,
   ⟨3, 5, 4, "milestone", .approved, some 1⟩]

/-- Witness for C7, applied at `c7Rewards`: user 3, whose proposals are all
pending or rejected, totals 0 approved points. -/
theorem approved_points_total_correct_witness :
    approvedPointsTotal c7Rewards 3 = 0 :=
  (approved_points_total_correct c7Rewards 3).2.2 (by decide)

/-- C8 : authenticate returns none both when the username is unknown and
when the username exists but the password fails verification, so the
returned value carries no information distinguishing the two failure
causes; and it returns an identity triple only when the stored row for the
username verifies, with exactly that row's id, full name, and role. -/
theorem authenticate_failure_uniform (verify : String → String → Bool)
    (users : List User) (uname pwd : String) :
    (users.find? (fun u => u.username == uname) = none →
      authenticate verify users uname pwd = none)
    ∧ (∀ u, users.find? (fun u2 => u2.username == uname) = some u →
        verify pwd u.password_hash = false →
        authenticate verify users uname pwd = none)
    ∧ (∀ i nm rl, authenticate verify users uname pwd = some (i, nm, rl) →
        ∃ u, users.find? (fun u2 => u2.username == uname) = some u ∧
          verify pwd u.password_hash = true ∧
          i = u.id ∧ nm = u.full_name ∧ rl = u.role) := by
  refine ⟨?_, ?_, ?_⟩
  · intro h
    unfold authenticate
    rw [h]
  · intro u h hv
    unfold authenticate
    rw [h]
    show (if verify pwd u.password_hash = true then
      some (u.id, u.full_name, u.role) else none) = none
    simp [hv]
  · intro i nm rl h
    unfold authenticate at h
    cases hf : users.find? (fun u2 => u2.username == uname) with
    | none =>
      rw [hf] at h
      have h2 : (none : Option (Nat × String × Role)) = some (i, nm, rl) := h
      exact Option.noConfusion h2
    | some u =>
      rw [hf] at h
      have h2 : (if verify pwd u.password_hash = true then
          some (u.id, u.full_name, u.role)
          else (none : Option (Nat × String × Role))) = some (i, nm, rl) := h
      by_cases hv : verify pwd u.password_hash
      · rw [if_pos hv] at h2
        have h3 := Option.some.inj h2
        exact ⟨u, rfl, hv, (congrArg Prod.fst h3).symm,
          (congrArg (fun t => t.2.1) h3).symm,
          (congrArg (fun t => t.2.2) h3).symm⟩
      · rw [if_neg hv] at h2
        exact Option.noConfusion h2

/-- Credential table for the C8 witness. -/
def c8Users : List User :=
  [⟨1, "alice@example.org", "Alice", .citizen, "hash-a"⟩]

/-- Witness for C8, applied with a concrete verifier (string equality with
the stored hash) at an unknown username: the result is none. -/
theorem authenticate_failure_uniform_witness :
    authenticate (fun p h => p == h) c8Users "bob@example.org" "pw" = none :=
  (authenticate_failure_uniform (fun p h => p == h) c8Users "bob@example.org" "pw").1
    (by decide)

/-- C9 : the three reporting projections are total functions that accept an
empty underlying table: with zero requests the status-count aggregation is
the empty collection; with zero segregation records the kilogram sums are
the SQL NULL row rather than an error; with zero recycling batches the
per-material output aggregation is the empty collection. The initial store
after init_db exercises exactly this case. -/
theorem reporting_tolerates_empty :
    requestsByStatus ([] : List WasteRequest) = []
    ∧ segTotals ([] : List SegregationRecord) = (none, none, none)
    ∧ recyclingByMaterial ([] : List RecyclingBatch) = []
    ∧ requestsByStatus initStore.requests = []
    ∧ segTotals initStore.segRecords = (none, none, none)
    ∧ recyclingByMaterial initStore.batches = [] :=
  ⟨rfl, rfl, rfl, rfl, rfl, rfl⟩

/-- C10 : for a request_id matching no request, log_recycling_batch signals
no error (it has no error path): the RecyclingBatch row recording that
request_id, material, output product, weight, and processing employee is
inserted while the requests table is untouched (the UPDATE matches no row),
whereas record_segregation on the same id reports NotFound and persists
nothing. -/
theorem log_batch_accepts_missing_request (s : Store) (rid : Nat)
    (m p : String) (w : Rat) (e : Nat) (o rc hz : Rat) (n : String)
    (h : ∀ r ∈ s.requests, r.id ≠ rid) :
    (logRecyclingBatch s rid m p w e).requests = s.requests
    ∧ (logRecyclingBatch s rid m p w e).batches =
        s.batches ++ [⟨rid, m, p, w, e⟩]
    ∧ recordSegregation s rid o rc hz n = .error .notFound := by
  have hfind : s.requests.find? (fun x => x.id == rid) = none :=
    List.find?_eq_none.mpr (fun x hx => by simpa using h x hx)
  refine ⟨?_, rfl, ?_⟩
  · show (s.requests.map (fun r =>
        if r.id == rid then { r with status := Status.recycled } else r)) = s.requests
    have hid : ∀ r ∈ s.requests, (if r.id == rid then
        { r with status := Status.recycled } else r) = r := by
      intro r hr
      rw [if_neg (by simpa using h r hr)]
    calc s.requests.map (fun r =>
          if r.id == rid then { r with status := Status.recycled } else r)
        = s.requests.map id := List.map_congr_left hid
      _ = s.requests := List.map_id _
  · unfold recordSegregation
    rw [hfind]

/-- Store for the C10 witness: one request with id 1; id 2 matches nothing. -/
def c10Store : Store :=
  ⟨[adminUser], [⟨1, 2, "5 Elm St", .hazardous, 2, "2025-04-01", .requested, none⟩],
   [], [], [], 2, 3⟩

/-- Witness for C10, applied at `c10Store` with the absent request id 2. -/
theorem log_batch_accepts_missing_request_witness :
    (logRecyclingBatch c10Store 2 "metal_ingots" "ingot" 1 4).requests =
        c10Store.requests
    ∧ (logRecyclingBatch c10Store 2 "metal_ingots" "ingot" 1 4).batches =
        c10Store.batches ++ [⟨2, "metal_ingots", "ingot", 1, 4⟩]
    ∧ recordSegregation c10Store 2 1 1 0 "n" = .error .notFound :=
  log_batch_accepts_missing_request c10Store 2 "metal_ingots" "ingot" 1 4
    1 1 0 "n" (by decide)

end WasteWise
